import Mathlib

/-!
Shallow embedding of the weatherlink repository (weatherlink/utils.py and
weatherlink/serial.py) and proofs about its specification claims.

Modelling conventions:
* Python `decimal.Decimal` values are modelled as exact rationals (`ℚ`).
  The Python decimal context carries 28 significant digits; all claims
  settled here concern quantization shape, null-propagation, gating and
  small-integer concrete evaluations, which agree with exact rational
  arithmetic.
* `Decimal.quantize(ONE_TENTH, rounding)` is modelled by explicit rounding
  functions on `ℚ` (`quantHalfEven1` for the context default
  ROUND_HALF_EVEN, `quantUp1` for ROUND_UP = away from zero, `quantDown1`
  for ROUND_DOWN = toward zero).
* The transcendental `Decimal` methods (`exp`, `ln`, `sqrt`, the fractional
  powers `10 ** x` and `ws ** 0.16`) compute context-precision
  approximations; they are modelled by an abstract bundle `DecimalOps` of
  rational-valued functions, and every theorem below is proved for an
  arbitrary bundle, so no result depends on the value of an approximation.
* Python `None` becomes `Option.none`; a Python argument that may be a
  Decimal or None becomes `Option ℚ`.  Python truthiness of such a value
  (used by the orchestrator's presence gates and `_append_to_list`) is
  `truthy`: false exactly for `none` and `some 0`.
* `datetime` values in the wind-average algorithm are modelled as integer
  minutes; subtracting `timedelta(minutes = i)` is integer subtraction.
* Division on `ℚ` is total (division by zero yields 0) where Python would
  raise; no claim below evaluates a division by zero.
-/

namespace Weatherlink

/-- Round a scaled rational to an integer with ROUND_HALF_EVEN
(the default rounding of the Python decimal context). -/
def rndHalfEven (s : ℚ) : ℤ :=
  if s - ⌊s⌋ < 1/2 then ⌊s⌋
  else if 1/2 < s - ⌊s⌋ then ⌊s⌋ + 1
  else if ⌊s⌋ % 2 = 0 then ⌊s⌋ else ⌊s⌋ + 1

/-- `x.quantize(Decimal('0.1'))` with the context default ROUND_HALF_EVEN. -/
def quantHalfEven1 (q : ℚ) : ℚ := (rndHalfEven (q * 10) : ℚ) / 10

/-- `x.quantize(ONE_HUNDREDTH)` with ROUND_HALF_EVEN (used by the
pressure converter). -/
def quantHalfEven2 (q : ℚ) : ℚ := (rndHalfEven (q * 100) : ℚ) / 100

/-- `x.quantize(ONE_TENTH, rounding=decimal.ROUND_UP)`: round away from
zero to one decimal place. -/
def quantUp1 (q : ℚ) : ℚ := ((if 0 ≤ q * 10 then ⌈q * 10⌉ else ⌊q * 10⌋) : ℚ) / 10

/-- `x.quantize(ONE_TENTH, rounding=decimal.ROUND_DOWN)`: round toward
zero to one decimal place. -/
def quantDown1 (q : ℚ) : ℚ := ((if 0 ≤ q * 10 then ⌊q * 10⌋ else ⌈q * 10⌉) : ℚ) / 10

/-- The value `v` carries at most one decimal place: `v * 10` is an
integer.  This is the shape every `quantize(ONE_TENTH, _)` result has. -/
def oneDP (v : ℚ) : Prop := ∃ z : ℤ, v * 10 = (z : ℚ)

/-- Abstract bundle for the context-precision approximations computed by
`Decimal.exp`, `Decimal.ln`, `Decimal.sqrt`, `10 ** x` and `ws ** 0.16`.
All theorems hold for an arbitrary bundle. -/
structure DecimalOps where
  dexp : ℚ → ℚ
  dln : ℚ → ℚ
  dsqrt : ℚ → ℚ
  pow10 : ℚ → ℚ
  pow016 : ℚ → ℚ

/-- A trivial bundle used to instantiate witnesses. -/
def ops0 : DecimalOps := ⟨fun _ => 1, fun _ => 1, fun _ => 1, fun _ => 1, fun _ => 1⟩

/-- `_as_decimal(value)`: `None` (and only `None`/zero, which coincide)
becomes `Decimal('0')`. -/
def asDecimal : Option ℚ → ℚ
  | none => 0
  | some q => q

/-- Python truthiness of a Decimal-or-None value: `None` and `Decimal('0')`
are falsy, everything else truthy. -/
def truthy : Option ℚ → Bool
  | none => false
  | some q => if q = 0 then false else true

/-- `convert_fahrenheit_to_celsius` (unquantized intermediate). -/
def convert_fahrenheit_to_celsius (t : ℚ) : ℚ := (t - 32) * (5 / 9)

/-- `convert_celsius_to_fahrenheit` (unquantized intermediate). -/
def convert_celsius_to_fahrenheit (t : ℚ) : ℚ := t * (9 / 5) + 32

/-- `convert_inches_of_mercury_to_millibars`: divide by
`KILOPASCAL_MERCURY_CONSTANT * 0.1`, quantize to 2 places. -/
def convert_inches_of_mercury_to_millibars (p : ℚ) : ℚ :=
  quantHalfEven2 (p / (295299830714 / 10000000000000))

/-- `convert_miles_per_hour_to_meters_per_second` (unquantized). -/
def convert_miles_per_hour_to_meters_per_second (ws : ℚ) : ℚ :=
  ws * (44704 / 100000)

/-- `calculate_wet_bulb_temperature(temperature, relative_humidity,
barometric_pressure)`. -/
def calculate_wet_bulb_temperature (ops : DecimalOps) (temperature : ℚ)
    (relative_humidity : Option ℚ) (barometric_pressure : ℚ) : ℚ :=
  let T := temperature
  let RH := asDecimal relative_humidity
  let P := convert_inches_of_mercury_to_millibars barometric_pressure
  let Tdc :=
    T - ((1455/100) + (114/1000) * T) * (1 - (1/100) * RH) -
      (((25/10) + (7/1000) * T) * (1 - (1/100) * RH)) ^ 3 -
      ((159/10) + (117/1000) * T) * (1 - (1/100) * RH) ^ 14
  let E := (611/100) * ops.pow10 ((75/10) * Tdc / ((2377/10) + Tdc))
  quantHalfEven1
    ((((66/100000) * P) * T + (4098 * E) / ((Tdc + (2377/10)) ^ 2) * Tdc) /
      ((66/100000) * P + (4098 * E) / ((Tdc + (2377/10)) ^ 2)))

/-- `_dew_point_gamma_m(T, RH)` (T already in Celsius). -/
def dew_point_gamma_m (ops : DecimalOps) (T RH : ℚ) : ℚ :=
  ops.dln (RH / 100 * ops.dexp (((1767/100) - T / (2345/10)) * (T / ((2435/10) + T))))

/-- `calculate_dew_point(temperature, relative_humidity)`. -/
def calculate_dew_point (ops : DecimalOps) (temperature : ℚ)
    (relative_humidity : Option ℚ) : ℚ :=
  let T := convert_fahrenheit_to_celsius temperature
  let RH := asDecimal relative_humidity
  quantHalfEven1 (convert_celsius_to_fahrenheit
    ((2435/10) * dew_point_gamma_m ops T RH /
      ((1767/100) - dew_point_gamma_m ops T RH)))

/-- `_abs(d) = max(d, -d)`. -/
def pyabs (d : ℚ) : ℚ := max d (-d)

/-- The unquantized heat-index value the source feeds into
`quantize(ONE_TENTH, ROUND_UP)`: the simple average-based estimate when
that estimate is below 80, otherwise the full NOAA regression with the
two conditional adjustments. -/
def heatIndexRaw (ops : DecimalOps) (temperature : ℚ)
    (relative_humidity : Option ℚ) : ℚ :=
  let T := temperature
  let RH := asDecimal relative_humidity
  let estimate := ((5/10) * (T + 61 + (T - 68) * (12/10) + RH * (94/1000)) + T) / 2
  if estimate < 80 then estimate
  else
    let regression :=
      (-42379/1000) + (204901523/100000000) * T + (1014333127/100000000) * RH +
        (-22475541/100000000) * T * RH + (-683783/100000000) * T * T +
        (-5481717/100000000) * RH * RH + (122874/100000000) * T * T * RH +
        (85282/100000000) * T * RH * RH + (-199/100000000) * T * T * RH * RH
    if 80 ≤ T ∧ T ≤ 112 ∧ RH < 13 then
      regression - ((13 - RH) / 4) * ops.dsqrt ((17 - pyabs (T - 95)) / 17)
    else if 80 ≤ T ∧ T ≤ 87 ∧ 85 < RH then
      regression + ((RH - 85) / 10) * ((87 - T) / 5)
    else regression

/-- `calculate_heat_index(temperature, relative_humidity)`. -/
def calculate_heat_index (ops : DecimalOps) (temperature : ℚ)
    (relative_humidity : Option ℚ) : Option ℚ :=
  if temperature < 70 then none
  else some (quantUp1 (heatIndexRaw ops temperature relative_humidity))

/-- The unquantized NWS wind-chill formula value
`35.74 + 0.6215*T - 35.75*V + 0.4275*T*V` with `V = WS ** 0.16`. -/
def windChillRaw (ops : DecimalOps) (T WS : ℚ) : ℚ :=
  let V := ops.pow016 WS
  (3574/100) + (6215/10000) * T - (3575/100) * V + (4275/10000) * T * V

/-- `calculate_wind_chill(temperature, wind_speed)`. -/
def calculate_wind_chill (ops : DecimalOps) (temperature : ℚ)
    (wind_speed : Option ℚ) : Option ℚ :=
  if 40 < temperature then none
  else
    let T := temperature
    let WS := asDecimal wind_speed
    if WS = 0 then some T
    else
      let wind_chill := quantHalfEven1 (windChillRaw ops T WS)
      some (if T < wind_chill then T else wind_chill)

/-- `calculate_thw_index(temperature, relative_humidity, wind_speed)`.
Note the source tests `if not hi:` on the heat-index result, which is
falsy both for `None` and for `Decimal('0')`. -/
def calculate_thw_index (ops : DecimalOps) (temperature : ℚ)
    (relative_humidity wind_speed : Option ℚ) : Option ℚ :=
  let hi := calculate_heat_index ops temperature relative_humidity
  let WS := asDecimal wind_speed
  match hi with
  | none => none
  | some h => if h = 0 then none
      else some (h - quantDown1 ((1072/1000) * WS))

/-- `calculate_thsw_index(temperature, relative_humidity, solar_radiation,
wind_speed)`. -/
def calculate_thsw_index (ops : DecimalOps) (temperature : ℚ)
    (relative_humidity : Option ℚ) (solar_radiation : ℚ)
    (wind_speed : Option ℚ) : ℚ :=
  let T := convert_fahrenheit_to_celsius temperature
  let RH := asDecimal relative_humidity
  let WS := convert_miles_per_hour_to_meters_per_second (asDecimal wind_speed)
  let E := RH / 100 * (6105/1000) * ops.dexp ((1727/100) * T / ((2377/10) + T))
  let Thsw := T + (348/1000) * E - (70/100) * WS +
    (70/100) * (solar_radiation / (WS + 10)) - (425/100)
  quantHalfEven1 (convert_celsius_to_fahrenheit Thsw)

/-- `calculate_cooling_degree_days(average_temperature)`. -/
def calculate_cooling_degree_days (average_temperature : ℚ) : Option ℚ :=
  if average_temperature ≤ 65 then none
  else some (average_temperature - 65)

/-- `calculate_heating_degree_days(average_temperature)`. -/
def calculate_heating_degree_days (average_temperature : ℚ) : Option ℚ :=
  if 65 ≤ average_temperature then none
  else some (65 - average_temperature)

/-- One `(wind_speed, wind_speed_direction, timestamp_station,
minutes_covered)` tuple consumed by `calculate_10_minute_wind_average`.
Timestamps are integer minutes. -/
structure WindSample where
  speed : Option ℚ
  direction : String
  timestamp : ℤ
  minutesCovered : ℕ
deriving DecidableEq

/-- `collections.deque(maxlen=10)` after `extend`: keep the last 10
elements. -/
def takeLast10 (l : List α) : List α := l.drop (l.length - 10)

/-- First occurrence of each element, in encounter order (the insertion
order of a `collections.Counter`). -/
def firstOccurrences (l : List String) : List String :=
  l.foldl (fun acc x => if x ∈ acc then acc else acc ++ [x]) []

/-- Number of occurrences of `x` in `l`. -/
def countOf (l : List String) (x : String) : ℕ := (l.filter (fun y => y = x)).length

/-- `collections.Counter(l).most_common()[0][0]`: the element with the
largest count, ties broken by first encounter. `none` on the empty list
(the source only calls this on a nonempty snapshot). -/
def mostCommon (l : List String) : Option String :=
  match firstOccurrences l with
  | [] => none
  | d :: ds => some (ds.foldl (fun best x =>
      if countOf l best < countOf l x then x else best) d)

/-- The loop state of `calculate_10_minute_wind_average`: the three
bounded queues, the best 10-minute mean seen so far, and the direction
and timestamp snapshots taken when that best mean was recorded. -/
structure WindState where
  speedQ : List ℚ
  dirQ : List String
  tsQ : List ℤ
  currentMax : ℚ
  curDirs : List String
  curTs : List ℤ
deriving DecidableEq

/-- Initial loop state: empty queues, `current_max = ZERO`, empty
snapshot lists. -/
def windInit : WindState := ⟨[], [], [], 0, [], []⟩

/-- The synthesized one-minute timestamps appended for one sample: the
sample's end timestamp when it covers a single minute, otherwise
`timestamp - i` for `i = minutes_covered - 1, ..., 0`. -/
def minuteTimestamps (timestamp : ℤ) (minutesCovered : ℕ) : List ℤ :=
  if minutesCovered = 1 then [timestamp]
  else (List.range minutesCovered).reverse.map (fun i => timestamp - (i : ℤ))

/-- The body of the `for` loop of `calculate_10_minute_wind_average` for
one sample (after the `minutes_covered > 10` guard): extend the three
queues by the sample's one-minute slots, then, when the speed queue holds
exactly 10 entries, compare the rolling mean against the best seen. -/
def stepSample (st : WindState) (r : WindSample) : WindState :=
  let ws := asDecimal r.speed
  let sq := takeLast10 (st.speedQ ++ List.replicate r.minutesCovered ws)
  let dq := takeLast10 (st.dirQ ++ List.replicate r.minutesCovered r.direction)
  let tq := takeLast10 (st.tsQ ++ minuteTimestamps r.timestamp r.minutesCovered)
  if sq.length = 10 then
    let average := sq.sum / 10
    if st.currentMax < average then ⟨sq, dq, tq, average, dq, tq⟩
    else ⟨sq, dq, tq, st.currentMax, st.curDirs, st.curTs⟩
  else ⟨sq, dq, tq, st.currentMax, st.curDirs, st.curTs⟩

/-- The `for` loop of `calculate_10_minute_wind_average`; `none` models
the early `return None, None, None, None` taken when a sample covers
more than 10 minutes. -/
def runLoop (st : WindState) : List WindSample → Option WindState
  | [] => some st
  | r :: rest =>
      if 10 < r.minutesCovered then none
      else runLoop (stepSample st r) rest

/-- `calculate_10_minute_wind_average(records)`: the best 10-minute mean
speed, the most common direction in its snapshot, and the oldest and
newest synthesized one-minute timestamps of that snapshot. -/
def calculate_10_minute_wind_average (records : List WindSample) :
    Option ℚ × Option String × Option ℤ × Option ℤ :=
  match runLoop windInit records with
  | none => (none, none, none, none)
  | some st =>
      if 0 < st.currentMax then
        (some st.currentMax, mostCommon st.curDirs, st.curTs.head?, st.curTs.getLast?)
      else (none, none, none, none)

/-- The primitive sensor record consumed by
`calculate_all_record_values`.  Each field is `record.get(...)`:
`none` models an absent key or `None` value.  `minutes_covered` is read
with `record['minutes_covered']` (unconditional), hence not optional. -/
structure WeatherRecord where
  wind_speed : Option ℚ := none
  wind_speed_high : Option ℚ := none
  humidity_outside : Option ℚ := none
  humidity_inside : Option ℚ := none
  barometric_pressure : Option ℚ := none
  temperature_outside : Option ℚ := none
  temperature_outside_low : Option ℚ := none
  temperature_outside_high : Option ℚ := none
  temperature_inside : Option ℚ := none
  solar_radiation : Option ℚ := none
  solar_radiation_high : Option ℚ := none
  minutes_covered : ℚ := 0
deriving DecidableEq

/-- The derived-value mapping produced by `calculate_all_record_values`:
one optional field per derived key (`none` = key absent). -/
structure DerivedValues where
  wind_run_distance_total : Option ℚ := none
  temperature_wet_bulb : Option ℚ := none
  temperature_wet_bulb_low : Option ℚ := none
  temperature_wet_bulb_high : Option ℚ := none
  dew_point_outside : Option ℚ := none
  dew_point_outside_low : Option ℚ := none
  dew_point_outside_high : Option ℚ := none
  heat_index_outside : Option ℚ := none
  heat_index_outside_low : Option ℚ := none
  heat_index_outside_high : Option ℚ := none
  dew_point_inside : Option ℚ := none
  heat_index_inside : Option ℚ := none
  wind_chill : Option ℚ := none
  wind_chill_low : Option ℚ := none
  wind_chill_high : Option ℚ := none
  thw_index : Option ℚ := none
  thw_index_low : Option ℚ := none
  thw_index_high : Option ℚ := none
  thsw_index : Option ℚ := none
  thsw_index_low : Option ℚ := none
  thsw_index_high : Option ℚ := none
deriving DecidableEq

/-- `_append_to_list(l, v)`: append `v` only when it is truthy (drops
both `None` and `Decimal('0')`). -/
def appendToList (l : List ℚ) (v : Option ℚ) : List ℚ :=
  if truthy v then l ++ [v.getD 0] else l

/-- Python `min` over a nonempty list given as head and tail. -/
def listMin (x : ℚ) (xs : List ℚ) : ℚ := xs.foldl min x

/-- Python `max` over a nonempty list given as head and tail. -/
def listMax (x : ℚ) (xs : List ℚ) : ℚ := xs.foldl max x

/-- The representative/low/high pattern applied to a candidate list:
`(a[0], min(a), max(a))` when `a` is nonempty, all keys absent when it
is empty. -/
def tripleOf (cands : List ℚ) : Option ℚ × Option ℚ × Option ℚ :=
  match cands with
  | [] => (none, none, none)
  | x :: xs => (some x, some (listMin x xs), some (listMax x xs))

/-- The specification of one representative/low/high triple against its
ordered candidate list: all three keys are absent for an empty list;
otherwise the representative is the first candidate, `_low` holds a
least element of the list, `_high` a greatest, and `_low ≤ _high`. -/
def tripleSpec (rep lo hi : Option ℚ) (cands : List ℚ) : Prop :=
  (cands = [] → rep = none ∧ lo = none ∧ hi = none) ∧
  (∀ x xs, cands = x :: xs →
    rep = some x ∧
    (∃ m, lo = some m ∧ m ∈ cands ∧ ∀ y ∈ cands, m ≤ y) ∧
    (∃ M, hi = some M ∧ M ∈ cands ∧ ∀ y ∈ cands, y ≤ M) ∧
    ∀ m M, lo = some m → hi = some M → m ≤ M)

/-- The ordered dew-point candidate list built by
`calculate_all_record_values` under the `if humidity_outside:` gate
(iteration order: current, low, high outside temperature). -/
def dewPointCands (ops : DecimalOps) (r : WeatherRecord) : List ℚ :=
  if truthy r.humidity_outside then
    let a : List ℚ := []
    let a := if truthy r.temperature_outside then
      appendToList a (some (calculate_dew_point ops
        (r.temperature_outside.getD 0) r.humidity_outside)) else a
    let a := if truthy r.temperature_outside_low then
      appendToList a (some (calculate_dew_point ops
        (r.temperature_outside_low.getD 0) r.humidity_outside)) else a
    let a := if truthy r.temperature_outside_high then
      appendToList a (some (calculate_dew_point ops
        (r.temperature_outside_high.getD 0) r.humidity_outside)) else a
    a
  else []

/-- The ordered heat-index candidate list built by
`calculate_all_record_values` under the `if humidity_outside:` gate
(iteration order: current, low, high outside temperature). -/
def heatIndexCands (ops : DecimalOps) (r : WeatherRecord) : List ℚ :=
  if truthy r.humidity_outside then
    let b : List ℚ := []
    let b := if truthy r.temperature_outside then
      appendToList b (calculate_heat_index ops
        (r.temperature_outside.getD 0) r.humidity_outside) else b
    let b := if truthy r.temperature_outside_low then
      appendToList b (calculate_heat_index ops
        (r.temperature_outside_low.getD 0) r.humidity_outside) else b
    let b := if truthy r.temperature_outside_high then
      appendToList b (calculate_heat_index ops
        (r.temperature_outside_high.getD 0) r.humidity_outside) else b
    b
  else []

/-- The ordered wind-chill candidate list: the source iterates
`wind_speed` over {current, high} outer and temperature over
{current, high, low} inner, each pairing gated on both operands being
truthy (`wind_speed` is the already-defaulted Decimal, so its gate is
nonzero-ness). -/
def windChillCands (ops : DecimalOps) (r : WeatherRecord) : List ℚ :=
  let ws := asDecimal r.wind_speed
  if (ws ≠ 0 ∨ truthy r.wind_speed_high) ∧
      (truthy r.temperature_outside ∨ truthy r.temperature_outside_high ∨
        truthy r.temperature_outside_low) then
    let a : List ℚ := []
    let a := if ws ≠ 0 ∧ truthy r.temperature_outside then
      appendToList a (calculate_wind_chill ops
        (r.temperature_outside.getD 0) (some ws)) else a
    let a := if ws ≠ 0 ∧ truthy r.temperature_outside_high then
      appendToList a (calculate_wind_chill ops
        (r.temperature_outside_high.getD 0) (some ws)) else a
    let a := if ws ≠ 0 ∧ truthy r.temperature_outside_low then
      appendToList a (calculate_wind_chill ops
        (r.temperature_outside_low.getD 0) (some ws)) else a
    let a := if truthy r.wind_speed_high ∧ truthy r.temperature_outside then
      appendToList a (calculate_wind_chill ops
        (r.temperature_outside.getD 0) r.wind_speed_high) else a
    let a := if truthy r.wind_speed_high ∧ truthy r.temperature_outside_high then
      appendToList a (calculate_wind_chill ops
        (r.temperature_outside_high.getD 0) r.wind_speed_high) else a
    let a := if truthy r.wind_speed_high ∧ truthy r.temperature_outside_low then
      appendToList a (calculate_wind_chill ops
        (r.temperature_outside_low.getD 0) r.wind_speed_high) else a
    a
  else []

/-- `wind_speed if wind_speed else 0` respectively
`wind_speed_high if wind_speed_high else 0`: the zero-defaulted wind
speeds used by the THW/THSW blocks. -/
def thwWindSpeeds (r : WeatherRecord) : ℚ × ℚ :=
  (if asDecimal r.wind_speed ≠ 0 then asDecimal r.wind_speed else 0,
   if truthy r.wind_speed_high then r.wind_speed_high.getD 0 else 0)

/-- The ordered THW-index candidate list: gated on outside humidity and
at least one outside-temperature variant; iteration order temperature
{current, high, low} outer, zero-defaulted wind speed
{wind_speed, wind_speed_high} inner. -/
def thwCands (ops : DecimalOps) (r : WeatherRecord) : List ℚ :=
  if truthy r.humidity_outside ∧
      (truthy r.temperature_outside ∨ truthy r.temperature_outside_high ∨
        truthy r.temperature_outside_low) then
    let ws := (thwWindSpeeds r).1
    let wsh := (thwWindSpeeds r).2
    let a : List ℚ := []
    let a := if truthy r.temperature_outside then
      appendToList (appendToList a (calculate_thw_index ops
          (r.temperature_outside.getD 0) r.humidity_outside (some ws)))
        (calculate_thw_index ops
          (r.temperature_outside.getD 0) r.humidity_outside (some wsh)) else a
    let a := if truthy r.temperature_outside_high then
      appendToList (appendToList a (calculate_thw_index ops
          (r.temperature_outside_high.getD 0) r.humidity_outside (some ws)))
        (calculate_thw_index ops
          (r.temperature_outside_high.getD 0) r.humidity_outside (some wsh)) else a
    let a := if truthy r.temperature_outside_low then
      appendToList (appendToList a (calculate_thw_index ops
          (r.temperature_outside_low.getD 0) r.humidity_outside (some ws)))
        (calculate_thw_index ops
          (r.temperature_outside_low.getD 0) r.humidity_outside (some wsh)) else a
    a
  else []

/-- The ordered THSW-index candidate list: gated on the THW gate plus at
least one solar-radiation variant; iteration order: all temperature
variants with current solar radiation first, then all with high solar
radiation, each with both zero-defaulted wind speeds. -/
def thswCands (ops : DecimalOps) (r : WeatherRecord) : List ℚ :=
  if truthy r.humidity_outside ∧
      (truthy r.temperature_outside ∨ truthy r.temperature_outside_high ∨
        truthy r.temperature_outside_low) ∧
      (truthy r.solar_radiation ∨ truthy r.solar_radiation_high) then
    let ws := (thwWindSpeeds r).1
    let wsh := (thwWindSpeeds r).2
    let a : List ℚ := []
    let a := if truthy r.temperature_outside ∧ truthy r.solar_radiation then
      appendToList (appendToList a (some (calculate_thsw_index ops
          (r.temperature_outside.getD 0) r.humidity_outside
          (r.solar_radiation.getD 0) (some ws))))
        (some (calculate_thsw_index ops (r.temperature_outside.getD 0)
          r.humidity_outside (r.solar_radiation.getD 0) (some wsh))) else a
    let a := if truthy r.temperature_outside_high ∧ truthy r.solar_radiation then
      appendToList (appendToList a (some (calculate_thsw_index ops
          (r.temperature_outside_high.getD 0) r.humidity_outside
          (r.solar_radiation.getD 0) (some ws))))
        (some (calculate_thsw_index ops (r.temperature_outside_high.getD 0)
          r.humidity_outside (r.solar_radiation.getD 0) (some wsh))) else a
    let a := if truthy r.temperature_outside_low ∧ truthy r.solar_radiation then
      appendToList (appendToList a (some (calculate_thsw_index ops
          (r.temperature_outside_low.getD 0) r.humidity_outside
          (r.solar_radiation.getD 0) (some ws))))
        (some (calculate_thsw_index ops (r.temperature_outside_low.getD 0)
          r.humidity_outside (r.solar_radiation.getD 0) (some wsh))) else a
    let a := if truthy r.temperature_outside ∧ truthy r.solar_radiation_high then
      appendToList (appendToList a (some (calculate_thsw_index ops
          (r.temperature_outside.getD 0) r.humidity_outside
          (r.solar_radiation_high.getD 0) (some ws))))
        (some (calculate_thsw_index ops (r.temperature_outside.getD 0)
          r.humidity_outside (r.solar_radiation_high.getD 0) (some wsh))) else a
    let a := if truthy r.temperature_outside_high ∧ truthy r.solar_radiation_high then
      appendToList (appendToList a (some (calculate_thsw_index ops
          (r.temperature_outside_high.getD 0) r.humidity_outside
          (r.solar_radiation_high.getD 0) (some ws))))
        (some (calculate_thsw_index ops (r.temperature_outside_high.getD 0)
          r.humidity_outside (r.solar_radiation_high.getD 0) (some wsh))) else a
    let a := if truthy r.temperature_outside_low ∧ truthy r.solar_radiation_high then
      appendToList (appendToList a (some (calculate_thsw_index ops
          (r.temperature_outside_low.getD 0) r.humidity_outside
          (r.solar_radiation_high.getD 0) (some ws))))
        (some (calculate_thsw_index ops (r.temperature_outside_low.getD 0)
          r.humidity_outside (r.solar_radiation_high.getD 0) (some wsh))) else a
    a
  else []

/-- A single optional wet-bulb key: gated on outside humidity and
pressure and the given temperature variant; the computed value is stored
only when truthy (`if a:`). -/
def wetBulbKey (ops : DecimalOps) (r : WeatherRecord) (t : Option ℚ) : Option ℚ :=
  if truthy r.humidity_outside ∧ truthy r.barometric_pressure ∧ truthy t then
    let a := calculate_wet_bulb_temperature ops (t.getD 0) r.humidity_outside
      (r.barometric_pressure.getD 0)
    if a = 0 then none else some a
  else none

/-- `calculate_all_record_values(record)`: the record-level derivation
orchestrator.  Every key of the Python result dictionary is assigned at
most once; each field below is that key's value (`none` = absent). -/
def calculate_all_record_values (ops : DecimalOps) (r : WeatherRecord) :
    DerivedValues :=
  let ws := asDecimal r.wind_speed
  let dewTriple := tripleOf (dewPointCands ops r)
  let hiTriple := tripleOf (heatIndexCands ops r)
  let wcTriple := tripleOf (windChillCands ops r)
  let thwTriple := tripleOf (thwCands ops r)
  let thswTriple := tripleOf (thswCands ops r)
  { wind_run_distance_total :=
      if ws ≠ 0 then some (ws / 60 * r.minutes_covered) else none
    temperature_wet_bulb := wetBulbKey ops r r.temperature_outside
    temperature_wet_bulb_low := wetBulbKey ops r r.temperature_outside_low
    temperature_wet_bulb_high := wetBulbKey ops r r.temperature_outside_high
    dew_point_outside := dewTriple.1
    dew_point_outside_low := dewTriple.2.1
    dew_point_outside_high := dewTriple.2.2
    heat_index_outside := hiTriple.1
    heat_index_outside_low := hiTriple.2.1
    heat_index_outside_high := hiTriple.2.2
    dew_point_inside :=
      if truthy r.humidity_inside ∧ truthy r.temperature_inside then
        let a := calculate_dew_point ops (r.temperature_inside.getD 0)
          r.humidity_inside
        if a = 0 then none else some a
      else none
    heat_index_inside :=
      if truthy r.humidity_inside ∧ truthy r.temperature_inside then
        match calculate_heat_index ops (r.temperature_inside.getD 0)
          r.humidity_inside with
        | none => none
        | some b => if b = 0 then none else some b
      else none
    wind_chill := wcTriple.1
    wind_chill_low := wcTriple.2.1
    wind_chill_high := wcTriple.2.2
    thw_index := thwTriple.1
    thw_index_low := thwTriple.2.1
    thw_index_high := thwTriple.2.2
    thsw_index := thswTriple.1
    thsw_index_low := thswTriple.2.1
    thsw_index_high := thswTriple.2.2 }

/-- The error taxonomy of the serial layer: `ValueError` for state and
data-integrity failures, `IOError` for protocol (bad ACK) and transport
failures, `NotImplementedError` for configuration writes. -/
inductive WLError where
  | stateError : WLError
  | protocolError : Option ℕ → WLError
  | dataIntegrity : WLError
  | ioError : WLError
  | notImplemented : WLError
deriving DecidableEq

/-- The observable state of a serial communicator for the configuration
read: the log of instruction strings sent so far and the incoming byte
stream (bytes as naturals < 256). -/
structure SerialState where
  sent : List String
  stream : List ℕ
deriving DecidableEq

/-- The protocol ACK byte `chr(curses.ascii.ACK)` = 0x06. -/
def ACK_BYTE : ℕ := 6

/-- `_send_instruction(command, confirm_ack=True)`: append the command to
the transport, then (when confirmation is requested) read one byte and
require it to be the ACK byte; a different byte (or an exhausted stream,
standing for a failed blocking read) is an `IOError` carrying the byte. -/
def send_instruction (command : String) (confirm_ack : Bool)
    (s : SerialState) : Except WLError SerialState :=
  let s1 : SerialState := ⟨s.sent ++ [command], s.stream⟩
  if confirm_ack then
    match s1.stream with
    | [] => .error (.protocolError none)
    | b :: rest =>
        if b = ACK_BYTE then .ok ⟨s1.sent, rest⟩
        else .error (.protocolError (some b))
  else .ok s1

/-- One hexadecimal digit's value (the source parses with
`int('0x%s' % s, 16)`; a non-hex character would raise there and is
mapped to 0 here, no claim exercises that case). -/
def hexDigitVal (c : Char) : ℕ :=
  if '0' ≤ c ∧ c ≤ '9' then c.toNat - 48
  else if 'a' ≤ c ∧ c ≤ 'f' then c.toNat - 87
  else if 'A' ≤ c ∧ c ≤ 'F' then c.toNat - 55
  else 0

/-- `int('0x%s' % setting_length, 16)`. -/
def hexToNat (s : String) : ℕ :=
  s.data.foldl (fun acc c => 16 * acc + hexDigitVal c) 0

/-- One shift step of the CRC-CCITT (polynomial 0x1021) computation. -/
def crcShift (c : ℕ) : ℕ :=
  if c &&& 32768 ≠ 0 then ((c <<< 1) ^^^ 4129) % 65536
  else (c <<< 1) % 65536

/-- Feed one byte into the CRC state (xor into the high byte, then eight
polynomial shift steps). -/
def crcStep (crc b : ℕ) : ℕ :=
  crcShift (crcShift (crcShift (crcShift (crcShift (crcShift (crcShift
    (crcShift ((crc ^^^ ((b % 256) <<< 8)) % 65536))))))))

/-- Modelled from the spec: `calculate_weatherlink_crc` lives in
`weatherlink/models.py`, which is not part of the provided sources; §4.2
describes it as the table/polynomial CRC-CCITT variant with seed 0, zero
over an uncorrupted buffer that includes its own trailing CRC bytes. -/
def calculate_weatherlink_crc (data : List ℕ) : ℕ :=
  data.foldl crcStep 0

/-- `read_config_setting(setting_address, setting_length, confirm_crc,
return_crc)`: send the formatted `EEBRD` instruction (ACK-confirmed),
read `int(setting_length, 16) + 2` bytes through the buffered handle,
optionally validate the CRC of the full returned buffer, and return the
buffer with or without its two trailing CRC bytes. -/
def read_config_setting (setting_address setting_length : String)
    (confirm_crc return_crc : Bool) (s : SerialState) :
    Except WLError (List ℕ × SerialState) :=
  match send_instruction
      ("EEBRD " ++ setting_address ++ " " ++ setting_length ++ "\n") true s with
  | .error e => .error e
  | .ok s1 =>
      let count := hexToNat setting_length + 2
      let setting := s1.stream.take count
      let s2 : SerialState := ⟨s1.sent, s1.stream.drop count⟩
      if confirm_crc ∧ calculate_weatherlink_crc setting ≠ 0 then
        .error .dataIntegrity
      else
        .ok ((if return_crc then setting else setting.dropLast.dropLast), s2)

/-- `write_config_setting(...)`: explicitly unimplemented. -/
def write_config_setting (_s : SerialState) : Except WLError (List ℕ × SerialState) :=
  .error .notImplemented

/-- The fields of a `SerialIPCommunicator`: host, port and the
`_socket` attribute (`none` = disconnected, `some id` = a live socket
handle). -/
structure IPCommState where
  host : String
  port : ℕ
  socket : Option ℕ
deriving DecidableEq

/-- Observable actions performed against the transport layer. -/
inductive TransportAction where
  | socketCreate : TransportAction
  | socketConnect : String → ℕ → TransportAction
  | socketClose : TransportAction
deriving DecidableEq

/-- `SerialIPCommunicator.connect()`.  The two external outcomes are
parameters: `create` is the result of `socket.socket(...)` (`none` = it
raised) and `connOk` tells whether `socket.connect((host, port))`
succeeded.  Returns the raised error (if any), the post-call state and
the list of transport actions performed.  On a connect failure after the
socket was assigned, the source performs best-effort cleanup
(`disconnect`, which closes the socket and resets `_socket` to `None`)
before re-raising. -/
def connect (create : Option ℕ) (connOk : Bool) (st : IPCommState) :
    Option WLError × IPCommState × List TransportAction :=
  if st.socket.isSome then (some .stateError, st, [])
  else
    match create with
    | none => (some .ioError, st, [.socketCreate])
    | some sock =>
        if connOk then
          (none, ⟨st.host, st.port, some sock⟩,
            [.socketCreate, .socketConnect st.host st.port])
        else
          (some .ioError, ⟨st.host, st.port, none⟩,
            [.socketCreate, .socketConnect st.host st.port, .socketClose])

/-- `SerialIPCommunicator.disconnect()`: a state error when no socket is
held; otherwise close the socket and reset `_socket` to `None` (the
reset happens in a `finally`, even if the close raises). -/
def disconnect (st : IPCommState) : Option WLError × IPCommState × List TransportAction :=
  if st.socket.isSome then (none, ⟨st.host, st.port, none⟩, [.socketClose])
  else (some .stateError, st, [])

theorem take_len_append (l₁ l₂ : List α) : (l₁ ++ l₂).take l₁.length = l₁ := by
  induction l₁ with
  | nil => simp
  | cons x xs ih => simp [ih]

theorem drop_len_append (l₁ l₂ : List α) : (l₁ ++ l₂).drop l₁.length = l₂ := by
  induction l₁ with
  | nil => simp
  | cons x xs ih => simp [ih]

theorem oneDP_quantHalfEven1 (q : ℚ) : oneDP (quantHalfEven1 q) := by
  refine ⟨rndHalfEven (q * 10), ?_⟩
  rw [quantHalfEven1]
  exact div_mul_cancel₀ _ (show (10:ℚ) ≠ 0 by norm_num)

theorem oneDP_quantUp1 (q : ℚ) : oneDP (quantUp1 q) := by
  refine ⟨if 0 ≤ q * 10 then ⌈q * 10⌉ else ⌊q * 10⌋, ?_⟩
  rw [quantUp1]
  split_ifs <;> exact div_mul_cancel₀ _ (show (10:ℚ) ≠ 0 by norm_num)

theorem oneDP_quantDown1 (q : ℚ) : oneDP (quantDown1 q) := by
  refine ⟨if 0 ≤ q * 10 then ⌊q * 10⌋ else ⌈q * 10⌉, ?_⟩
  rw [quantDown1]
  split_ifs <;> exact div_mul_cancel₀ _ (show (10:ℚ) ≠ 0 by norm_num)

theorem oneDP_sub (a b : ℚ) (ha : oneDP a) (hb : oneDP b) : oneDP (a - b) := by
  obtain ⟨za, hza⟩ := ha
  obtain ⟨zb, hzb⟩ := hb
  exact ⟨za - zb, by rw [sub_mul, hza, hzb]; push_cast; ring⟩

theorem abs_le_abs_quantUp1 (q : ℚ) : |q| ≤ |quantUp1 q| := by
  rcases le_or_lt 0 (q * 10) with h | h
  · rw [quantUp1, if_pos h]
    have h1 : (q * 10 : ℚ) ≤ ⌈q * 10⌉ := Int.le_ceil _
    have hq : (0 : ℚ) ≤ q := by linarith
    have hc : (0 : ℚ) ≤ (⌈q * 10⌉ : ℚ) := le_trans h h1
    rw [abs_of_nonneg hq, abs_of_nonneg (by linarith : (0:ℚ) ≤ (⌈q * 10⌉ : ℚ) / 10)]
    linarith
  · rw [quantUp1, if_neg (not_le.mpr h)]
    have h1 : ((⌊q * 10⌋ : ℚ)) ≤ q * 10 := Int.floor_le _
    have hq : q ≤ 0 := by linarith
    have hc : ((⌊q * 10⌋ : ℚ)) ≤ 0 := by linarith
    rw [abs_of_nonpos hq, abs_of_nonpos (by linarith : ((⌊q * 10⌋ : ℚ)) / 10 ≤ 0)]
    linarith

theorem abs_quantUp1_sub_lt (q : ℚ) : |quantUp1 q - q| < 1 / 10 := by
  rcases le_or_lt 0 (q * 10) with h | h
  · rw [quantUp1, if_pos h, abs_sub_lt_iff]
    have h1 : (q * 10 : ℚ) ≤ ⌈q * 10⌉ := Int.le_ceil _
    have h2 : ((⌈q * 10⌉ : ℚ)) < q * 10 + 1 := Int.ceil_lt_add_one _
    constructor <;> linarith
  · rw [quantUp1, if_neg (not_le.mpr h), abs_sub_lt_iff]
    have h1 : ((⌊q * 10⌋ : ℚ)) ≤ q * 10 := Int.floor_le _
    have h2 : q * 10 - 1 < ⌊q * 10⌋ := Int.sub_one_lt_floor _
    constructor <;> linarith

theorem listMin_le_head (x : ℚ) (xs : List ℚ) : listMin x xs ≤ x := by
  induction xs generalizing x with
  | nil => exact le_refl x
  | cons y ys ih =>
      calc listMin x (y :: ys) = listMin (min x y) ys := rfl
        _ ≤ min x y := ih _
        _ ≤ x := min_le_left _ _

theorem listMin_le_mem (x : ℚ) (xs : List ℚ) : ∀ y ∈ xs, listMin x xs ≤ y := by
  induction xs generalizing x with
  | nil => intro y hy; simp at hy
  | cons z zs ih =>
      intro y hy
      rcases List.mem_cons.mp hy with h | h
      · subst h
        calc listMin x (y :: zs) = listMin (min x y) zs := rfl
          _ ≤ min x y := listMin_le_head _ _
          _ ≤ y := min_le_right _ _
      · exact ih (min x z) y h

theorem listMin_mem (x : ℚ) (xs : List ℚ) : listMin x xs ∈ x :: xs := by
  induction xs generalizing x with
  | nil => simp [listMin]
  | cons y ys ih =>
      have h := ih (min x y)
      rcases List.mem_cons.mp h with h1 | h1
      · have : listMin x (y :: ys) = min x y := h1
        rcases min_choice x y with h2 | h2
        · rw [show listMin x (y :: ys) = listMin (min x y) ys from rfl, h1, h2]
          exact List.mem_cons_self _ _
        · rw [show listMin x (y :: ys) = listMin (min x y) ys from rfl, h1, h2]
          exact List.mem_cons_of_mem _ (List.mem_cons_self _ _)
      · exact List.mem_cons_of_mem _ (List.mem_cons_of_mem _ h1)

theorem head_le_listMax (x : ℚ) (xs : List ℚ) : x ≤ listMax x xs := by
  induction xs generalizing x with
  | nil => exact le_refl x
  | cons y ys ih =>
      calc x ≤ max x y := le_max_left _ _
        _ ≤ listMax (max x y) ys := ih _
        _ = listMax x (y :: ys) := rfl

theorem mem_le_listMax (x : ℚ) (xs : List ℚ) : ∀ y ∈ xs, y ≤ listMax x xs := by
  induction xs generalizing x with
  | nil => intro y hy; simp at hy
  | cons z zs ih =>
      intro y hy
      rcases List.mem_cons.mp hy with h | h
      · subst h
        calc y ≤ max x y := le_max_right _ _
          _ ≤ listMax (max x y) zs := head_le_listMax _ _
          _ = listMax x (y :: zs) := rfl
      · exact ih (max x z) y h

theorem listMax_mem (x : ℚ) (xs : List ℚ) : listMax x xs ∈ x :: xs := by
  induction xs generalizing x with
  | nil => simp [listMax]
  | cons y ys ih =>
      have h := ih (max x y)
      rcases List.mem_cons.mp h with h1 | h1
      · rcases max_choice x y with h2 | h2
        · rw [show listMax x (y :: ys) = listMax (max x y) ys from rfl, h1, h2]
          exact List.mem_cons_self _ _
        · rw [show listMax x (y :: ys) = listMax (max x y) ys from rfl, h1, h2]
          exact List.mem_cons_of_mem _ (List.mem_cons_self _ _)
      · exact List.mem_cons_of_mem _ (List.mem_cons_of_mem _ h1)

theorem tripleSpec_tripleOf (c : List ℚ) :
    tripleSpec (tripleOf c).1 (tripleOf c).2.1 (tripleOf c).2.2 c := by
  cases c with
  | nil => exact ⟨fun _ => ⟨rfl, rfl, rfl⟩, fun x xs h => by simp at h⟩
  | cons x xs =>
      refine ⟨fun h => by simp at h, fun y ys h => ?_⟩
      obtain ⟨h1, h2⟩ : x = y ∧ xs = ys := by
        injection h with h1 h2; exact ⟨h1, h2⟩
      subst h1; subst h2
      refine ⟨rfl, ⟨listMin x xs, rfl, listMin_mem x xs, ?_⟩,
        ⟨listMax x xs, rfl, listMax_mem x xs, ?_⟩, ?_⟩
      · intro z hz
        rcases List.mem_cons.mp hz with h1 | h1
        · subst h1; exact listMin_le_head _ _
        · exact listMin_le_mem _ _ _ h1
      · intro z hz
        rcases List.mem_cons.mp hz with h1 | h1
        · subst h1; exact head_le_listMax _ _
        · exact mem_le_listMax _ _ _ h1
      · intro m M hm hM
        obtain h3 : listMin x xs = m := by injection hm with h3
        obtain h4 : listMax x xs = M := by injection hM with h4
        subst h3; subst h4
        rcases List.mem_cons.mp (listMin_mem x xs) with h5 | h5
        · rw [h5]; exact head_le_listMax _ _
        · exact mem_le_listMax _ _ _ h5

theorem calculate_heat_index_eq_of_le (ops : DecimalOps) (T : ℚ) (RH : Option ℚ)
    (h : ¬ T < 70) :
    calculate_heat_index ops T RH = some (quantUp1 (heatIndexRaw ops T RH)) := by
  simp only [calculate_heat_index, if_neg h]

/-- Claim C1: `calculate_heat_index(T, RH)` returns null exactly when
T < 70 °F; for T ≥ 70 it returns the round-up 1-decimal-place
quantization of the computed raw heat index (the average-based estimate
when that is below 80, else the full NOAA regression), so the returned
value is a multiple of 0.1 whose magnitude rounds away from zero and is
within 0.1 of the raw value. -/
theorem heat_index_null_iff_and_round_up (ops : DecimalOps) (T : ℚ) (RH : Option ℚ) :
    (calculate_heat_index ops T RH = none ↔ T < 70) ∧
    (70 ≤ T →
      calculate_heat_index ops T RH = some (quantUp1 (heatIndexRaw ops T RH)) ∧
      oneDP (quantUp1 (heatIndexRaw ops T RH)) ∧
      |heatIndexRaw ops T RH| ≤ |quantUp1 (heatIndexRaw ops T RH)| ∧
      |quantUp1 (heatIndexRaw ops T RH) - heatIndexRaw ops T RH| < 1 / 10) := by
  constructor
  · by_cases h : T < 70 <;> simp [calculate_heat_index, h]
  · intro h70
    exact ⟨calculate_heat_index_eq_of_le ops T RH (not_lt.mpr h70),
      oneDP_quantUp1 _, abs_le_abs_quantUp1 _, abs_quantUp1_sub_lt _⟩

theorem heat_index_null_iff_and_round_up_witness :
    calculate_heat_index ops0 75 (some 50) = some (748 / 10) := by
  have h := ((heat_index_null_iff_and_round_up ops0 75 (some 50)).2 (by norm_num)).1
  rw [h]
  with_unfolding_all decide

/-- Claim C2: `calculate_wind_chill(T, S)` returns null exactly when
T > 40 °F; for T ≤ 40 it returns exactly T when the (null-defaulted)
speed is zero, otherwise the half-even 1-decimal-place quantization of
the NWS formula clamped at T; in all cases the returned value never
exceeds T. -/
theorem wind_chill_null_iff_and_clamped (ops : DecimalOps) (T : ℚ) (WS : Option ℚ) :
    (calculate_wind_chill ops T WS = none ↔ 40 < T) ∧
    (T ≤ 40 → asDecimal WS = 0 → calculate_wind_chill ops T WS = some T) ∧
    (T ≤ 40 → asDecimal WS ≠ 0 →
      calculate_wind_chill ops T WS =
        some (if T < quantHalfEven1 (windChillRaw ops T (asDecimal WS)) then T
          else quantHalfEven1 (windChillRaw ops T (asDecimal WS)))) ∧
    (∀ v, calculate_wind_chill ops T WS = some v → v ≤ T) := by
  have hbody : calculate_wind_chill ops T WS =
      if 40 < T then none
      else if asDecimal WS = 0 then some T
      else some (if T < quantHalfEven1 (windChillRaw ops T (asDecimal WS)) then T
        else quantHalfEven1 (windChillRaw ops T (asDecimal WS))) := rfl
  rw [hbody]
  refine ⟨?_, ?_, ?_, ?_⟩
  · constructor
    · intro h
      by_contra hT
      rw [if_neg hT] at h
      split_ifs at h
    · intro h
      rw [if_pos h]
  · intro h40 h0
    rw [if_neg (not_lt.mpr h40), if_pos h0]
  · intro h40 h0
    rw [if_neg (not_lt.mpr h40), if_neg h0]
  · intro v hv
    split_ifs at hv with h1 h2 h3
    · exact (Option.some_inj.mp hv).ge
    · exact (Option.some_inj.mp hv).ge
    · exact (Option.some_inj.mp hv) ▸ le_of_not_lt h3

theorem wind_chill_null_iff_and_clamped_witness :
    calculate_wind_chill ops0 30 (some 10) = some 30 ∧ (30 : ℚ) ≤ 30 := by
  have h := (wind_chill_null_iff_and_clamped ops0 30 (some 10)).2.2.1 (by norm_num)
    (show asDecimal (some 10) ≠ 0 by with_unfolding_all decide)
  refine ⟨?_, le_refl _⟩
  rw [h]
  with_unfolding_all decide

/-- Claim C8: every value returned from a public derived-metric function
carries its documented quantization shape — wet-bulb, dew point, heat
index, THW and THSW results are multiples of 0.1; a wind-chill result is
either exactly the input temperature (the documented speed-zero and
clamped branches) or a multiple of 0.1; degree-day results are the exact
documented differences against 65 °F. -/
theorem public_results_quantized (ops : DecimalOps) (T P SR Tavg : ℚ)
    (RH WS : Option ℚ) :
    oneDP (calculate_wet_bulb_temperature ops T RH P) ∧
    oneDP (calculate_dew_point ops T RH) ∧
    (∀ v, calculate_heat_index ops T RH = some v → oneDP v) ∧
    (∀ v, calculate_wind_chill ops T WS = some v → v = T ∨ oneDP v) ∧
    (∀ v, calculate_thw_index ops T RH WS = some v → oneDP v) ∧
    oneDP (calculate_thsw_index ops T RH SR WS) ∧
    (∀ v, calculate_cooling_degree_days Tavg = some v → v = Tavg - 65) ∧
    (∀ v, calculate_heating_degree_days Tavg = some v → v = 65 - Tavg) := by
  refine ⟨oneDP_quantHalfEven1 _, oneDP_quantHalfEven1 _, ?_, ?_, ?_,
    oneDP_quantHalfEven1 _, ?_, ?_⟩
  · intro v hv
    by_cases h : T < 70
    · simp [calculate_heat_index, if_pos h] at hv
    · rw [calculate_heat_index_eq_of_le ops T RH h] at hv
      obtain h4 : quantUp1 (heatIndexRaw ops T RH) = v := by injection hv
      rw [← h4]
      exact oneDP_quantUp1 _
  · intro v hv
    have hbody : calculate_wind_chill ops T WS =
        if 40 < T then none
        else if asDecimal WS = 0 then some T
        else some (if T < quantHalfEven1 (windChillRaw ops T (asDecimal WS)) then T
          else quantHalfEven1 (windChillRaw ops T (asDecimal WS))) := rfl
    rw [hbody] at hv
    split_ifs at hv with h1 h2 h3
    · exact Or.inl (Option.some_inj.mp hv).symm
    · exact Or.inl (Option.some_inj.mp hv).symm
    · exact Or.inr ((Option.some_inj.mp hv) ▸ oneDP_quantHalfEven1 _)
  · intro v hv
    have hbody : calculate_thw_index ops T RH WS =
        match calculate_heat_index ops T RH with
        | none => none
        | some h => if h = 0 then none
            else some (h - quantDown1 ((1072/1000) * asDecimal WS)) := rfl
    rw [hbody] at hv
    rcases hhi : calculate_heat_index ops T RH with _ | hi
    · simp only [hhi] at hv
      exact absurd hv (by simp)
    · simp only [hhi] at hv
      split_ifs at hv with h0
      have hhiDP : oneDP hi := by
        by_cases h : T < 70
        · simp [calculate_heat_index, if_pos h] at hhi
        · rw [calculate_heat_index_eq_of_le ops T RH h] at hhi
          obtain h5 : quantUp1 (heatIndexRaw ops T RH) = hi := by injection hhi
          exact h5 ▸ oneDP_quantUp1 _
      exact (Option.some_inj.mp hv) ▸ oneDP_sub _ _ hhiDP (oneDP_quantDown1 _)
  · intro v hv
    simp only [calculate_cooling_degree_days] at hv
    split_ifs at hv
    exact (Option.some_inj.mp hv).symm
  · intro v hv
    simp only [calculate_heating_degree_days] at hv
    split_ifs at hv
    exact (Option.some_inj.mp hv).symm

theorem public_results_quantized_witness :
    oneDP (calculate_dew_point ops0 75 (some 50)) ∧
    oneDP ((748 : ℚ) / 10) ∧
    ((30 : ℚ) = 30 ∨ oneDP 30) ∧
    ((5 : ℚ) = 70 - 65) := by
  have h := public_results_quantized ops0 75 30 100 70 (some 50) (some 10)
  have h30 : calculate_wind_chill ops0 30 (some 10) = some 30 := by
    with_unfolding_all decide
  refine ⟨h.2.1, ?_, ?_, ?_⟩
  · exact h.2.2.1 (748 / 10) (by with_unfolding_all decide)
  · exact (public_results_quantized ops0 30 30 100 70 (some 50) (some 10)).2.2.2.1
      30 h30
  · exact h.2.2.2.2.2.2.1 5 (by with_unfolding_all decide)

theorem runLoop_none_of_bad (st : WindState) (records : List WindSample)
    (h : ∃ r ∈ records, 10 < r.minutesCovered) : runLoop st records = none := by
  induction records generalizing st with
  | nil => simp at h
  | cons r rest ih =>
      obtain ⟨r', hr', hmc⟩ := h
      rcases List.mem_cons.mp hr' with h1 | h1
      · subst h1
        rw [runLoop, if_pos hmc]
      · rw [runLoop]
        split
        · rfl
        · exact ih _ ⟨r', h1, hmc⟩

/-- Claim C3: for four consecutive 10-minute samples with speeds
1, 1, 2, 1 and directions NW, NNW, WNW, NE ending at 06:10, 06:20,
06:30, 06:40 (minutes 370, 380, 390, 400), the result is the maximum
10-minute mean 2, most-common direction WNW of the maximal window's
snapshot, and the oldest and newest synthesized one-minute timestamps
06:21 (381) and 06:30 (390) of that snapshot. -/
theorem wind_average_four_sample_example :
    calculate_10_minute_wind_average
      [⟨some 1, "NW", 370, 10⟩, ⟨some 1, "NNW", 380, 10⟩,
       ⟨some 2, "WNW", 390, 10⟩, ⟨some 1, "NE", 400, 10⟩] =
      (some 2, some "WNW", some 381, some 390) := by
  with_unfolding_all decide

/-- Claim C4: `calculate_10_minute_wind_average` returns the all-null
tuple for the empty batch, and for every batch containing at least one
sample whose minutes_covered exceeds 10, regardless of the other
samples. -/
theorem wind_average_rejects_bad_batch (records : List WindSample) :
    calculate_10_minute_wind_average [] = (none, none, none, none) ∧
    ((∃ r ∈ records, 10 < r.minutesCovered) →
      calculate_10_minute_wind_average records = (none, none, none, none)) := by
  constructor
  · with_unfolding_all decide
  · intro h
    simp [calculate_10_minute_wind_average, runLoop_none_of_bad windInit records h]

theorem wind_average_rejects_bad_batch_witness :
    calculate_10_minute_wind_average
      [⟨some 1, "NW", 365, 5⟩, ⟨some 1, "NNW", 375, 10⟩,
       ⟨some 2, "WNW", 386, 11⟩, ⟨some 1, "NE", 387, 1⟩] =
      (none, none, none, none) :=
  (wind_average_rejects_bad_batch _).2
    ⟨⟨some 2, "WNW", 386, 11⟩,
      List.mem_cons_of_mem _ (List.mem_cons_of_mem _ (List.mem_cons_self _ _)),
      by norm_num⟩

/-- Claim C10: in the wind-average loop the rolling mean is considered
exactly once per input sample, against the speed window obtained after
all of that sample's one-minute slots have been inserted; the updated
maximum and both snapshots are determined by that fully-extended window
only, and the loop advances one whole sample at a time. -/
theorem rolling_mean_once_per_sample (st : WindState) (r : WindSample)
    (rest : List WindSample) :
    (stepSample st r).currentMax =
      (if (takeLast10 (st.speedQ ++ List.replicate r.minutesCovered
            (asDecimal r.speed))).length = 10 ∧
          st.currentMax < (takeLast10 (st.speedQ ++ List.replicate r.minutesCovered
            (asDecimal r.speed))).sum / 10
        then (takeLast10 (st.speedQ ++ List.replicate r.minutesCovered
          (asDecimal r.speed))).sum / 10
        else st.currentMax) ∧
    (stepSample st r).curDirs =
      (if (takeLast10 (st.speedQ ++ List.replicate r.minutesCovered
            (asDecimal r.speed))).length = 10 ∧
          st.currentMax < (takeLast10 (st.speedQ ++ List.replicate r.minutesCovered
            (asDecimal r.speed))).sum / 10
        then takeLast10 (st.dirQ ++ List.replicate r.minutesCovered r.direction)
        else st.curDirs) ∧
    (stepSample st r).curTs =
      (if (takeLast10 (st.speedQ ++ List.replicate r.minutesCovered
            (asDecimal r.speed))).length = 10 ∧
          st.currentMax < (takeLast10 (st.speedQ ++ List.replicate r.minutesCovered
            (asDecimal r.speed))).sum / 10
        then takeLast10 (st.tsQ ++ minuteTimestamps r.timestamp r.minutesCovered)
        else st.curTs) ∧
    runLoop st (r :: rest) =
      (if 10 < r.minutesCovered then none else runLoop (stepSample st r) rest) := by
  refine ⟨?_, ?_, ?_, rfl⟩ <;>
    (simp only [stepSample]
     split_ifs <;> first | rfl | tauto)

/-- Claim C5: in the mapping produced by `calculate_all_record_values`,
each of the five representative/low/high triples (dew point, heat index,
wind chill, THW, THSW) satisfies: the representative equals the first
candidate in the fixed iteration order, `_low` a least and `_high` a
greatest candidate (hence `_low ≤ _high`), and all three keys are absent
when the candidate list is empty. -/
theorem orchestrator_triple_invariant (ops : DecimalOps) (r : WeatherRecord) :
    tripleSpec (calculate_all_record_values ops r).dew_point_outside
      (calculate_all_record_values ops r).dew_point_outside_low
      (calculate_all_record_values ops r).dew_point_outside_high
      (dewPointCands ops r) ∧
    tripleSpec (calculate_all_record_values ops r).heat_index_outside
      (calculate_all_record_values ops r).heat_index_outside_low
      (calculate_all_record_values ops r).heat_index_outside_high
      (heatIndexCands ops r) ∧
    tripleSpec (calculate_all_record_values ops r).wind_chill
      (calculate_all_record_values ops r).wind_chill_low
      (calculate_all_record_values ops r).wind_chill_high
      (windChillCands ops r) ∧
    tripleSpec (calculate_all_record_values ops r).thw_index
      (calculate_all_record_values ops r).thw_index_low
      (calculate_all_record_values ops r).thw_index_high
      (thwCands ops r) ∧
    tripleSpec (calculate_all_record_values ops r).thsw_index
      (calculate_all_record_values ops r).thsw_index_low
      (calculate_all_record_values ops r).thsw_index_high
      (thswCands ops r) :=
  ⟨tripleSpec_tripleOf _, tripleSpec_tripleOf _, tripleSpec_tripleOf _,
    tripleSpec_tripleOf _, tripleSpec_tripleOf _⟩

theorem orchestrator_triple_invariant_witness :
    (calculate_all_record_values ops0
      { humidity_outside := some 50, temperature_outside := some 75,
        temperature_outside_low := some 74 }).heat_index_outside =
      some (748 / 10) ∧
    (738 : ℚ) / 10 ≤ 748 / 10 := by
  have h := (orchestrator_triple_invariant ops0
    { humidity_outside := some 50, temperature_outside := some 75,
      temperature_outside_low := some 74 }).2.1
  have hc : heatIndexCands ops0
      { humidity_outside := some 50, temperature_outside := some 75,
        temperature_outside_low := some 74 } = [748 / 10, 738 / 10] := by
    with_unfolding_all decide
  have hlo : (calculate_all_record_values ops0
      { humidity_outside := some 50, temperature_outside := some 75,
        temperature_outside_low := some 74 }).heat_index_outside_low =
      some (738 / 10) := by
    with_unfolding_all decide
  have hhi : (calculate_all_record_values ops0
      { humidity_outside := some 50, temperature_outside := some 75,
        temperature_outside_low := some 74 }).heat_index_outside_high =
      some (748 / 10) := by
    with_unfolding_all decide
  obtain ⟨-, h2⟩ := h
  obtain ⟨hrep, -, -, hlh⟩ := h2 (748 / 10) [738 / 10] hc
  exact ⟨hrep, hlh (738 / 10) (748 / 10) hlo hhi⟩

/-- Claim C9: `calculate_all_record_values` treats a decimal-zero field
exactly like a missing field: zero fails every presence gate (zero
outside humidity suppresses all dew-point and heat-index keys, zero wind
speed suppresses the wind-run key), and a computed candidate equal to
zero is dropped by `_append_to_list` just like a null one. -/
theorem zero_treated_as_missing (ops : DecimalOps) (r : WeatherRecord) (l : List ℚ) :
    (r.humidity_outside = some 0 →
      (calculate_all_record_values ops r).dew_point_outside = none ∧
      (calculate_all_record_values ops r).dew_point_outside_low = none ∧
      (calculate_all_record_values ops r).dew_point_outside_high = none ∧
      (calculate_all_record_values ops r).heat_index_outside = none ∧
      (calculate_all_record_values ops r).heat_index_outside_low = none ∧
      (calculate_all_record_values ops r).heat_index_outside_high = none) ∧
    (asDecimal r.wind_speed = 0 →
      (calculate_all_record_values ops r).wind_run_distance_total = none) ∧
    appendToList l (some 0) = l ∧ appendToList l none = l ∧
    truthy (some 0) = false ∧ truthy none = false := by
  refine ⟨?_, ?_, ?_, ?_, rfl, rfl⟩
  · intro h
    have hcand : dewPointCands ops r = [] := by
      simp [dewPointCands, h, truthy]
    have hcand2 : heatIndexCands ops r = [] := by
      simp [heatIndexCands, h, truthy]
    refine ⟨?_, ?_, ?_, ?_, ?_, ?_⟩ <;>
      simp [calculate_all_record_values, hcand, hcand2, tripleOf]
  · intro h
    simp [calculate_all_record_values, h]
  · simp [appendToList, truthy]
  · simp [appendToList, truthy]

theorem zero_treated_as_missing_witness :
    (calculate_all_record_values ops0
      { wind_speed := some 0, humidity_outside := some 0,
        temperature_outside := some 75 }).dew_point_outside = none ∧
    (calculate_all_record_values ops0
      { wind_speed := some 0, humidity_outside := some 0,
        temperature_outside := some 75 }).wind_run_distance_total = none ∧
    appendToList [1] (some 0) = [1] := by
  have h := zero_treated_as_missing ops0
    { wind_speed := some 0, humidity_outside := some 0,
      temperature_outside := some 75 } [1]
  exact ⟨(h.1 rfl).1, h.2.1 rfl, h.2.2.1⟩

/-- Claim C6: `read_config_setting` sends the formatted `EEBRD` read
instruction, consumes exactly `length + 2` bytes after the ACK (payload
plus two CRC bytes); with `confirm_crc` it fails with a data-integrity
error exactly when the CRC over the full returned buffer is nonzero, and
on success returns the buffer with the two trailing CRC bytes stripped
unless `return_crc` is set. -/
theorem read_config_setting_spec (setting_address setting_length : String)
    (confirm_crc return_crc : Bool) (payload rest : List ℕ)
    (h : payload.length = hexToNat setting_length + 2) :
    (read_config_setting setting_address setting_length confirm_crc return_crc
      ⟨[], ACK_BYTE :: (payload ++ rest)⟩ =
      if confirm_crc ∧ calculate_weatherlink_crc payload ≠ 0
        then .error .dataIntegrity
        else .ok ((if return_crc then payload else payload.dropLast.dropLast),
          ⟨["EEBRD " ++ setting_address ++ " " ++ setting_length ++ "\n"], rest⟩)) ∧
    (confirm_crc = true →
      (read_config_setting setting_address setting_length confirm_crc return_crc
          ⟨[], ACK_BYTE :: (payload ++ rest)⟩ = .error .dataIntegrity ↔
        calculate_weatherlink_crc payload ≠ 0)) := by
  have hmain : read_config_setting setting_address setting_length confirm_crc
      return_crc ⟨[], ACK_BYTE :: (payload ++ rest)⟩ =
      if confirm_crc ∧ calculate_weatherlink_crc payload ≠ 0
        then .error .dataIntegrity
        else .ok ((if return_crc then payload else payload.dropLast.dropLast),
          ⟨["EEBRD " ++ setting_address ++ " " ++ setting_length ++ "\n"], rest⟩) := by
    have hsend : send_instruction
        ("EEBRD " ++ setting_address ++ " " ++ setting_length ++ "\n") true
        ⟨[], ACK_BYTE :: (payload ++ rest)⟩ =
        .ok ⟨["EEBRD " ++ setting_address ++ " " ++ setting_length ++ "\n"],
          payload ++ rest⟩ := by
      simp [send_instruction]
    simp only [read_config_setting, hsend, ← h, take_len_append, drop_len_append]
  refine ⟨hmain, ?_⟩
  intro hcc
  subst hcc
  rw [hmain]
  by_cases hz : calculate_weatherlink_crc payload = 0
  · rw [if_neg (by simp [hz])]
    simp [hz]
  · rw [if_pos (by simp [hz])]
    simp [hz]

theorem read_config_setting_spec_witness :
    read_config_setting "2B" "01" true false ⟨[], ACK_BYTE :: ([0, 0, 0] ++ [])⟩ =
      .ok ([0], ⟨["EEBRD 2B 01\n"], []⟩) := by
  have h := (read_config_setting_spec "2B" "01" true false [0, 0, 0] []
    (by decide)).1
  rw [h]
  rfl

/-- Claim C7: calling `connect()` on an already-connected communicator
fails with a state error and leaves the connection untouched: the state
is returned unchanged and no transport action is performed. -/
theorem connect_when_already_connected (create : Option ℕ) (connOk : Bool)
    (st : IPCommState) (sock : ℕ) (h : st.socket = some sock) :
    connect create connOk st = (some .stateError, st, []) := by
  simp [connect, h]

theorem connect_when_already_connected_witness :
    connect (some 2) true ⟨"station.local", 22222, some 1⟩ =
      (some .stateError, ⟨"station.local", 22222, some 1⟩, []) :=
  connect_when_already_connected (some 2) true _ 1 rfl

end Weatherlink
